/-
Verification of the WISE backend's AI generation pipeline against its
specification.

The development shallowly embeds the Python source under `src/backend/`:

* `book/services.py`   — `ChapterService.get_chapters_by_range`,
                         `ChapterService.get_chapter_content`
* `book/models.py`     — the `Chapter` model's fields (note: no `outline`)
* `account/models.py`  — `CustomUser.api_key` (a non-null `CharField`)
* `ai/services.py`     — `BookAiService.generate_outline` context assembly
* `ai/chains/generate_outline_chain.py` — outline prompt assembly
* `ai/chains/generate_chapter_chain.py` — chapter prompt assembly and
                         buffered accumulation
* `ai/endpoints.py`    — pre-stream validation, SSE relay `event_stream`,
                         response headers
* `utils/sse_util.py`  — SSE relay `_event_stream`, `create_sse_response`

Pure functions become Lean functions; the fragment-producing LLM call is
modelled as the list of fragments it yields followed by how it terminates
(clean exhaustion or a raised exception); Django ORM lookups become explicit
lists of rows / `Option` results.
-/
import Mathlib

/-! ### Python values

Chapter `content` is a Django `JSONField`: a list of untyped Python values.
`PyVal` models the JSON-representable Python values appearing there.
JSON numbers are modelled as integers; floating point formatting is outside
the scope of the claims. -/

inductive PyVal where
  | none
  | bool (b : Bool)
  | int (n : Int)
  | str (s : String)
  | list (xs : List PyVal)
  | dict (fields : List (String × PyVal))

/-- Python `dict.get(key)`: keys of a Python dict are unique, so the fields
are an association list looked up by first match. -/
def dictGet (fields : List (String × PyVal)) (key : String) : Option PyVal :=
  (fields.find? (fun kv => kv.1 = key)).map (fun kv => kv.2)

/-- The characters stripped by Python `str.strip()`, restricted to ASCII
whitespace (the claims never involve non-ASCII whitespace). -/
def pyIsSpace (c : Char) : Bool :=
  c = ' ' || c = '\t' || c = '\n' || c = '\r' || c = '\x0b' || c = '\x0c'

/-- Python `str.strip()`: remove leading and trailing whitespace. -/
def pyStrip (s : String) : String :=
  ⟨((s.data.dropWhile pyIsSpace).reverse.dropWhile pyIsSpace).reverse⟩

/-- One hexadecimal digit, lowercase. -/
def hexDigit (n : Nat) : Char :=
  if n < 10 then Char.ofNat ('0'.toNat + n) else Char.ofNat ('a'.toNat + (n - 10))

/-- Four-digit lowercase hexadecimal, as in JSON `\uXXXX` escapes. -/
def hex4 (n : Nat) : String :=
  String.mk [hexDigit (n / 4096 % 16), hexDigit (n / 256 % 16),
             hexDigit (n / 16 % 16), hexDigit (n % 16)]

/-- Escaping of a single character inside a JSON string produced by Python
`json.dumps(..., ensure_ascii=False)`: `"` and `\` are escaped, control
characters use the short escapes or `\uXXXX`, everything else is verbatim. -/
def jsonEscapeChar (c : Char) : String :=
  if c = '"' then "\\\""
  else if c = '\\' then "\\\\"
  else if c = '\n' then "\\n"
  else if c = '\t' then "\\t"
  else if c = '\r' then "\\r"
  else if c = '\x08' then "\\b"
  else if c = '\x0c' then "\\f"
  else if c.toNat < 32 then "\\u" ++ hex4 c.toNat
  else String.singleton c

/-- A JSON string literal for `s`, as produced by
`json.dumps(s, ensure_ascii=False)`. -/
def jsonStr (s : String) : String :=
  "\"" ++ String.join (s.data.map jsonEscapeChar) ++ "\""

/-- Python `repr` of a string: quote with `'`, or with `"` when the string
contains `'` but no `"`; escape the backslash, the quote character and the
common control characters. Used only inside `pyStr` of composite values. -/
def pyStrRepr (s : String) : String :=
  let q : Char := if s.data.contains '\'' && !(s.data.contains '"') then '"' else '\''
  let esc : Char → String := fun c =>
    if c = '\\' then "\\\\"
    else if c = q then "\\" ++ String.singleton q
    else if c = '\n' then "\\n"
    else if c = '\t' then "\\t"
    else if c = '\r' then "\\r"
    else String.singleton c
  String.singleton q ++ String.join (s.data.map esc) ++ String.singleton q

mutual

/-- Python `repr()` on `PyVal` (`str()` and `repr()` agree on everything but
top-level strings). -/
def pyRepr : PyVal → String
  | .none => "None"
  | .bool true => "True"
  | .bool false => "False"
  | .int n => toString n
  | .str s => pyStrRepr s
  | .list xs => "[" ++ pyReprSeq xs ++ "]"
  | .dict fields => "\x7b" ++ pyReprFields fields ++ "\x7d"

/-- Comma-separated `repr`s of the elements of a Python list. -/
def pyReprSeq : List PyVal → String
  | [] => ""
  | [x] => pyRepr x
  | x :: y :: xs => pyRepr x ++ ", " ++ pyReprSeq (y :: xs)

/-- Comma-separated `repr`s of the entries of a Python dict. -/
def pyReprFields : List (String × PyVal) → String
  | [] => ""
  | [kv] => pyStrRepr kv.1 ++ ": " ++ pyRepr kv.2
  | kv :: kv2 :: kvs => pyStrRepr kv.1 ++ ": " ++ pyRepr kv.2 ++ ", " ++ pyReprFields (kv2 :: kvs)

end

/-- Python `str()` on `PyVal`: the identity on strings, `repr` otherwise. -/
def pyStr : PyVal → String
  | .str s => s
  | v => pyRepr v

example : pyStr (.int 42) = "42" := by decide
example : pyStr (.str "ab") = "ab" := by decide
example : pyStr (.list [.int 1, .str "a"]) = "[1, 'a']" := by rfl
example : pyStrip "  a b\n" = "a b" := by decide
example : jsonStr "a\"b" = "\"a\\\"b\"" := by decide

/-! ### Data model (`book/models.py`, `account/models.py`)

The `Chapter` model's fields, as declared in `book/models.py` lines 192-256:
`id`, `book` (foreign key, kept as `book_id`), `chapter_number`, `title`,
`content`, `create_time`, `update_time`, `status`.  There is deliberately NO
`outline` field here because the model declares none. -/

structure Chapter where
  id : Int
  book_id : Int
  chapter_number : Int
  title : String
  content : List PyVal
  create_time : Int
  update_time : Int
  status : String

/-- Python attribute access on a `Chapter` model instance: one entry per
field declared in `book/models.py` (the related `Book` object itself is
viewed through `book_id`); any other name — in particular `"outline"` —
yields `none`, which in Python is an `AttributeError`. -/
def chapterGetAttr (c : Chapter) (name : String) : Option PyVal :=
  if name = "id" then some (.int c.id)
  else if name = "book_id" then some (.int c.book_id)
  else if name = "chapter_number" then some (.int c.chapter_number)
  else if name = "title" then some (.str c.title)
  else if name = "content" then some (.list c.content)
  else if name = "create_time" then some (.int c.create_time)
  else if name = "update_time" then some (.int c.update_time)
  else if name = "status" then some (.str c.status)
  else none

/-- A `Book` row together with its related `Chapter` rows (`related_name
"chapters"`).  Only the fields the embedded code touches are kept; note that
`book/models.py` declares no `settings` field on `Book`. -/
structure Book where
  id : Int
  title : String
  status : String
  chapters : List Chapter

/-- The database constraints relevant here: `chapter_number` has
`MinValueValidator(1)` and `unique_together ("book", "chapter_number")`. -/
def Book.WF (b : Book) : Prop :=
  (∀ c ∈ b.chapters, 1 ≤ c.chapter_number) ∧
  (b.chapters.map (fun c => c.chapter_number)).Nodup

/-- The chapter numbers present in a book. -/
def chapterNumbersIn (b : Book) : List Int :=
  b.chapters.map (fun c => c.chapter_number)

/-- Ordering used by `.order_by("chapter_number")`. -/
def byNumber (a b : Chapter) : Prop := a.chapter_number ≤ b.chapter_number

instance : DecidableRel byNumber := fun _ _ => Int.decLe _ _

/-- `ChapterService.get_chapters_by_range` (`book/services.py` 196-209):
chapters of the book with `start ≤ chapter_number < end`, ordered by
`chapter_number`.  The SQL ordering is embedded as a stable sort of the
row list; by the uniqueness constraint the tie behaviour is irrelevant. -/
def get_chapters_by_range (book : Book) (start stop : Int) : List Chapter :=
  List.insertionSort byNumber
    (book.chapters.filter (fun c => start ≤ c.chapter_number && c.chapter_number < stop))

/-! ### Text extraction (`ChapterService.get_chapter_content`,
`book/services.py` 212-225) -/

/-- `isinstance(item, dict)`. -/
def isDictItem (item : PyVal) : Bool :=
  match item with
  | .dict _ => true
  | _ => false

/-- `isinstance(item, dict) and item.get("type") == "text"`. -/
def isTextItem (item : PyVal) : Bool :=
  match item with
  | .dict fields =>
    match dictGet fields "type" with
    | some (.str t) => t = "text"
    | _ => false
  | _ => false

/-- The sort key `item.get("index", 0)`.  Python sorts by the raw value and
raises `TypeError` on incomparable mixes; the embedding fixes the key to an
integer, covering every content whose present `"index"` values are integers
(the hypothesis `indexesAreInts` in the theorems below). -/
def itemIndexInt (item : PyVal) : Int :=
  match item with
  | .dict fields =>
    match dictGet fields "index" with
    | some (.int n) => n
    | _ => 0
  | _ => 0

/-- Every `"index"` value present in the content is an integer: the domain
on which the embedding of the sort key is faithful to Python. -/
def indexesAreInts (content : List PyVal) : Bool :=
  content.all fun item =>
    match item with
    | .dict fields =>
      match dictGet fields "index" with
      | some (.int _) => true
      | some _ => false
      | Option.none => true
    | _ => true

/-- Key comparison used by `text_items.sort(key=lambda x: x.get("index", 0))`. -/
def byIndex (a b : PyVal) : Prop := itemIndexInt a ≤ itemIndexInt b

instance : DecidableRel byIndex := fun _ _ => Int.decLe _ _

/-- `str(item.get("content", ""))` for one (dict) block. -/
def itemContentStr (item : PyVal) : String :=
  match item with
  | .dict fields => pyStr ((dictGet fields "content").getD (.str ""))
  | _ => ""

/-- `ChapterService.get_chapter_content`: empty string for empty content;
otherwise filter the blocks that are dicts with `type == "text"`, stably
sort them by `item.get("index", 0)`, and join `str(item.get("content", ""))`.
Python's `list.sort` is stable, as is `List.insertionSort`; two stable
sorts by the same key agree on every list. -/
def get_chapter_content (chapter : Chapter) : String :=
  let chapter_content := chapter.content
  if chapter_content.isEmpty then ""
  else
    let text_items := chapter_content.filter isTextItem
    let sorted_items := List.insertionSort byIndex text_items
    String.join (sorted_items.map itemContentStr)

/-! ### Context window (`BookAiService.generate_outline` /
`BookAiService.generate_chapter`, `ai/services.py` 19-70) -/

/-- The context-window computation shared by both service methods
(`ai/services.py` lines 30-38 and 58-69): no context at all when the target
chapter is number 1, otherwise the chapters in
`[max(1, current - context_size), current)`. -/
def contextWindow (book : Book) (current context_size : Int) : List Chapter :=
  if current ≠ 1 then get_chapters_by_range book (max 1 (current - context_size)) current
  else []

/-- The `previous_outlines` loop of `BookAiService.generate_outline`
(`ai/services.py` 33-38): for every chapter of the context window it reads
`chapter.outline`.  The attribute read is embedded through `chapterGetAttr`;
a missing attribute is Python's `AttributeError`, carried in `Except`. -/
def previous_outlines_read (book : Book) (current context_size : Int) :
    Except String (List String) :=
  (contextWindow book current context_size).mapM fun c =>
    match chapterGetAttr c "outline" with
    | some (.str s) => Except.ok s
    | _ => Except.error "AttributeError: 'Chapter' object has no attribute 'outline'"

/-- A chapter row with given number and content and neutral other fields,
used for concrete instances. -/
def mkChapter (n : Int) (content : List PyVal) : Chapter :=
  { id := n, book_id := 1, chapter_number := n, title := "", content := content,
    create_time := 0, update_time := 0, status := "draft" }

/-- A book with the given chapters, used for concrete instances. -/
def mkBook (chapters : List Chapter) : Book :=
  { id := 1, title := "b", status := "draft", chapters := chapters }

example :
    (get_chapters_by_range (mkBook [mkChapter 3 [], mkChapter 1 [], mkChapter 2 []]) 1 3).map
      (fun c => c.chapter_number) = [1, 2] := by decide

example :
    get_chapter_content (mkChapter 1
      [.dict [("type", .str "text"), ("index", .int 1), ("content", .str "B")],
       .dict [("type", .str "text"), ("index", .int 0), ("content", .str "A")],
       .dict [("type", .str "image"), ("index", .int 2), ("content", .str "X")]]) = "AB" := by
  decide

/-! ### SSE framing (`ai/endpoints.py` 59-82, `utils/sse_util.py` 9-23)

The fragment source (the LLM streaming call) is modelled by the list of
fragments it yields and the way it terminates: clean exhaustion, or an
exception raised after the listed fragments (a raise before the first
fragment is the empty list). -/

inductive SourceEnd where
  | exhausted
  | raised (msg : String)

/-- One SSE content frame:
`f"data: {json.dumps({'content': chunk}, ensure_ascii=False)}\n\n"`. -/
def contentFrame (chunk : String) : String :=
  "data: \x7b\"content\": " ++ jsonStr chunk ++ "\x7d\n\n"

/-- The completion frame of `ai/endpoints.py`
(`'event: complete\ndata: {"status": "done"}\n\n'`, a literal). -/
def completeFrame : String :=
  "event: complete\ndata: \x7b\"status\": \"done\"\x7d\n\n"

/-- The completion frame of `utils/sse_util.py` (`"data: [DONE]\n\n"`). -/
def doneFrame : String := "data: [DONE]\n\n"

/-- One SSE error frame:
`f"event: error\ndata: {json.dumps({'error': str(e)}, ensure_ascii=False)}\n\n"`
(identical in both relays). -/
def errorFrame (msg : String) : String :=
  "event: error\ndata: \x7b\"error\": " ++ jsonStr msg ++ "\x7d\n\n"

/-- The generator `event_stream` of `ai/endpoints.py` lines 59-82: iterate
the fragments, yielding a content frame for each truthy (non-empty) chunk;
on clean exhaustion yield the completion frame; the `except` clause catches
any exception raised by the source and yields a single error frame instead
(so the exception never propagates and nothing follows it). -/
def event_stream : List String → SourceEnd → List String
  | [], .exhausted => [completeFrame]
  | [], .raised msg => [errorFrame msg]
  | chunk :: rest, ending =>
    (if chunk = "" then [] else [contentFrame chunk]) ++ event_stream rest ending

/-- The generator `_event_stream` of `utils/sse_util.py` lines 9-23: same
relay with the `data: [DONE]` completion variant (the `.encode("utf-8")`
byte conversion is left implicit; frames are kept as strings). -/
def _event_stream : List String → SourceEnd → List String
  | [], .exhausted => [doneFrame]
  | [], .raised msg => [errorFrame msg]
  | chunk :: rest, ending =>
    (if chunk = "" then [] else [contentFrame chunk]) ++ _event_stream rest ending

example :
    event_stream ["Hello", "", " world"] .exhausted =
      [contentFrame "Hello", contentFrame " world", completeFrame] := by decide
example :
    event_stream ["partial"] (.raised "boom") =
      [contentFrame "partial", errorFrame "boom"] := by decide

/-! ### Response headers (`ai/endpoints.py` 84-95, `utils/sse_util.py` 26-50) -/

/-- The headers dict built in `ai/endpoints.py` lines 84-89: `Cache-Control`
and `X-Accel-Buffering` unconditionally, `Connection: keep-alive` added when
`not settings.DEBUG`. -/
def generate_outline_headers (debug : Bool) : List (String × String) :=
  let headers := [("Cache-Control", "no-cache"), ("X-Accel-Buffering", "no")]
  if !debug then headers ++ [("Connection", "keep-alive")] else headers

/-- The headers dict built in `utils/sse_util.py` lines 36-45:
`Cache-Control` unconditionally, `Connection` and `X-Accel-Buffering` added
when `not settings.DEBUG`. -/
def create_sse_response_headers (debug : Bool) : List (String × String) :=
  let headers := [("Cache-Control", "no-cache")]
  if !debug then headers ++ [("Connection", "keep-alive"), ("X-Accel-Buffering", "no")]
  else headers

/-- A `StreamingHttpResponse`: the content type and headers are fixed at
construction, before the body iterator produces its first frame. -/
structure StreamingResponse where
  content_type : String
  headers : List (String × String)
  body : List String

/-- `create_sse_response` of `utils/sse_util.py` lines 26-50. -/
def create_sse_response (debug : Bool) (fragments : List String) (ending : SourceEnd) :
    StreamingResponse :=
  { content_type := "text/event-stream",
    headers := create_sse_response_headers debug,
    body := _event_stream fragments ending }

/-! ### The generate-outline endpoint (`ai/endpoints.py` 33-95) -/

/-- `CustomUser` of `account/models.py`: `api_key` is a `CharField` with
`default=""` and `blank=True` — a non-null string column, so a user who
never set a key holds the empty string, not `None`. -/
structure CustomUser where
  username : String
  profile_image_path : String
  balance : Int
  api_key : String

inductive EndpointResult where
  | http (status : Nat) (field : String) (message : String)
  | streaming (response : StreamingResponse)

/-- The `generate_outline` view of `ai/endpoints.py` lines 33-95.  Database
lookups and the permission check are external collaborators, passed as their
results; `generation` is the outcome of the fragment source that runs inside
the stream (LLM construction and chunk production, lines 61-69).  The order
of checks is the source's: book 404, permission 403, chapter 404, api-key
400, then the streaming response.  The api-key read `user.api_key` always
yields a string for a `CustomUser` (non-null column), embedded as
`some user.api_key`, so the `is None` test is the source's line 56-57. -/
def generate_outline_endpoint (debug : Bool) (user : CustomUser)
    (bookLookup : Option Book) (canViewBook : Bool) (chapterLookup : Option Chapter)
    (generation : List String × SourceEnd) : EndpointResult :=
  match bookLookup with
  | Option.none => .http 404 "book_id" "书籍不存在"
  | some _ =>
    if !canViewBook then .http 403 "permission" "没有查看权限"
    else
      match chapterLookup with
      | Option.none => .http 404 "chapter_number" "章节不存在"
      | some _ =>
        let api_key : Option String := some user.api_key
        if api_key = Option.none then .http 400 "api_key" "未设置 API Key"
        else
          .streaming
            { content_type := "text/event-stream",
              headers := generate_outline_headers debug,
              body := event_stream generation.1 generation.2 }

/-! ### Prompt assembly (`ai/chains/generate_outline_chain.py`,
`ai/chains/generate_chapter_chain.py`)

LangChain's `SystemMessage`/`HumanMessage`/`AIMessage` become a tagged
variant type; `ChatPromptTemplate.from_messages` with a `MessagesPlaceholder`
splices the history list between the fixed messages. -/

inductive Message where
  | system (content : String)
  | user (content : String)
  | assistant (content : String)
deriving DecidableEq

/-- Modelled from the spec: the fixed outline-writing policy text loaded by
`ai/prompts.py` from `ai/templates/prompts/生成大纲.jinja2`, a template file
absent from `src/`; its exact wording is irrelevant to every claim. -/
def generate_outline_prompt : String := "OUTLINE_WRITING_POLICY"

/-- Modelled from the spec: the fixed chapter-writing policy text loaded by
`ai/prompts.py` from `ai/templates/prompts/生成正文.jinja2`, a template file
absent from `src/`; its exact wording is irrelevant to every claim. -/
def generate_chapter_prompt : String := "CHAPTER_WRITING_POLICY"

/-- The book-settings user turn shared by both chains. -/
def settingsTurn (settings : String) : String :=
  "这是小说的设定，请仔细阅读：\n\n" ++ settings

/-- The synthetic acknowledgment assistant turn shared by both chains. -/
def ackTurn : String := "好的，我已阅读完毕，并将严格遵守设定完成创作！"

/-- The outline-chain request line `f"完成第 {k} 章的大纲："`. -/
def outlineRequest (k : Int) : String := s!"完成第 {k} 章的大纲："

/-- The chapter-chain user turn
`f"第 {k} 章大纲：\n\n{outline}\n\n根据大纲完成正文："`. -/
def chapterTurn (k : Int) (outline : String) : String :=
  s!"第 {k} 章大纲：\n\n{outline}\n\n根据大纲完成正文："

/-- Python rendering of the `Optional[str]` current outline inside the
f-string: `None` prints as `"None"`. -/
def optStr : Option String → String
  | Option.none => "None"
  | some s => s

/-- The `history` list built by `generate_outline`
(`ai/chains/generate_outline_chain.py` lines 24-29): for
`i in range(len(previous_outlines))` the pair
`HumanMessage(f"完成第 {current_number - context_size + i} 章的大纲：")` /
`AIMessage(previous_outlines[i])` where `context_size =
len(previous_outlines)`.  `previous_outlines[i]` is embedded as `getD i ""`;
the index is always in range since `i < previous_outlines.length`. -/
def outlineHistory (current_number : Int) (previous_outlines : List String) :
    List Message :=
  let context_size := previous_outlines.length
  List.flatten ((List.range context_size).map fun (i : Nat) =>
    [Message.user (outlineRequest (current_number - (context_size : Int) + (i : Int))),
     Message.assistant (previous_outlines.getD i "")])

/-- The message list assembled by `generate_outline`
(`ai/chains/generate_outline_chain.py` lines 30-40): system policy, settings
user turn, acknowledgment, the spliced history, and the final user request
for `current_number`. -/
def generate_outline_messages (settings : String) (current_number : Int)
    (previous_outlines : List String) : List Message :=
  [.system generate_outline_prompt,
   .user (settingsTurn settings),
   .assistant ackTurn]
  ++ outlineHistory current_number previous_outlines
  ++ [.user (outlineRequest current_number)]

/-- The `history` list built by `generate_chapter`
(`ai/chains/generate_chapter_chain.py` lines 25-30): for
`i in range(len(previous_chapters))` the pair
`HumanMessage(f"第 {current_number-context_size+i} 章大纲：\n\n
{previous_outlines[i]}\n\n根据大纲完成正文：")` /
`AIMessage(previous_chapters[i])` where `context_size =
len(previous_chapters)`.  The source indexes `previous_outlines[i]` and
raises `IndexError` when that list is shorter; it is embedded as
`getD i ""`, and every caller (`BookAiService.generate_chapter`) passes
lists of equal length. -/
def chapterHistory (current_number : Int)
    (previous_outlines previous_chapters : List String) : List Message :=
  let context_size := previous_chapters.length
  List.flatten ((List.range context_size).map fun (i : Nat) =>
    [Message.user (chapterTurn (current_number - (context_size : Int) + (i : Int))
                     (previous_outlines.getD i "")),
     Message.assistant (previous_chapters.getD i "")])

/-- The message list assembled by `generate_chapter`
(`ai/chains/generate_chapter_chain.py` lines 31-41): system policy, settings
user turn, acknowledgment, the spliced history, and the final user turn
supplying the current chapter's own outline. -/
def generate_chapter_messages (settings : String) (current_number : Int)
    (previous_outlines previous_chapters : List String)
    (current_outline : Option String) : List Message :=
  [.system generate_chapter_prompt,
   .user (settingsTurn settings),
   .assistant ackTurn]
  ++ chapterHistory current_number previous_outlines previous_chapters
  ++ [.user (chapterTurn current_number (optStr current_outline))]

/-- The buffered invocation of `generate_chapter`
(`ai/chains/generate_chapter_chain.py` lines 44-53): the LLM is an opaque
map from the assembled prompt to its stream of chunks (`chain.stream`); the
loop accumulates `result += chunk` and the function returns
`result.strip()`. -/
def generate_chapter (stream : List Message → List String) (settings : String)
    (current_number : Int) (previous_outlines previous_chapters : List String)
    (current_outline : Option String) : String :=
  let prompt := generate_chapter_messages settings current_number
                  previous_outlines previous_chapters current_outline
  pyStrip ((stream prompt).foldl (fun result chunk => result ++ chunk) "")

example :
    generate_outline_messages "S" 3 ["O1", "O2"] =
      [.system generate_outline_prompt, .user (settingsTurn "S"), .assistant ackTurn,
       .user (outlineRequest 1), .assistant "O1",
       .user (outlineRequest 2), .assistant "O2",
       .user (outlineRequest 3)] := by decide

/-! ### Instances and shared lemmas -/

instance : IsTotal Chapter byNumber :=
  ⟨fun a b => Int.le_total a.chapter_number b.chapter_number⟩

instance : IsTrans Chapter byNumber :=
  ⟨fun _ _ _ h₁ h₂ => Int.le_trans h₁ h₂⟩

instance : IsTotal PyVal byIndex :=
  ⟨fun a b => Int.le_total (itemIndexInt a) (itemIndexInt b)⟩

instance : IsTrans PyVal byIndex :=
  ⟨fun _ _ _ h₁ h₂ => Int.le_trans h₁ h₂⟩

instance : IsAntisymm Int (· < ·) := ⟨fun _ _ h₁ h₂ => by omega⟩

/-- The terminal frame a relay emits for a given source ending, with the
given completion variant. -/
def terminalFrame (completion : String) : SourceEnd → String
  | .exhausted => completion
  | .raised msg => errorFrame msg

/-- `foldl` accumulation of string concatenation equals the right fold:
the bridge between the incremental `result += chunk` loop and the
mathematical concatenation of all chunks. -/
theorem foldl_append_eq_foldr (l : List String) (init : String) :
    l.foldl (fun result chunk => result ++ chunk) init =
      init ++ l.foldr (fun chunk acc => chunk ++ acc) "" := by
  induction l generalizing init with
  | nil => simp
  | cons c cs ih => simp [ih (init ++ c), String.append_assoc]

/-! ### C1 — SSE relay framing -/

/-- C1: for every fragment sequence and every way the source ends, both SSE
relays (`event_stream` in `ai/endpoints.py` and `_event_stream` in
`utils/sse_util.py`) emit exactly one content frame per non-empty fragment
in production order and none for empty fragments, followed by exactly one
terminal frame — the completion frame on clean exhaustion, or one error
frame carrying the raised error's message — and nothing after it; the
total-function embedding returns this frame list, so the exception never
propagates out of the stream. -/
theorem sse_relay_framing (fragments : List String) (ending : SourceEnd) :
    event_stream fragments ending =
      (fragments.filter (fun c => c ≠ "")).map contentFrame ++
        [terminalFrame completeFrame ending] ∧
    _event_stream fragments ending =
      (fragments.filter (fun c => c ≠ "")).map contentFrame ++
        [terminalFrame doneFrame ending] := by
  induction fragments with
  | nil => cases ending <;> simp [event_stream, _event_stream, terminalFrame]
  | cons c cs ih =>
    by_cases hc : c = "" <;>
      simp [event_stream, _event_stream, List.filter_cons, hc, ih.1, ih.2]

/-! ### C5 — the `Chapter` model has no `outline` field -/

/-- C5 (code bug): the claim says every `Chapter` record carries an
`outline` string so that the generation services can read it without
failing.  The model of `book/models.py` declares no such field: the
attribute read yields `none` for every chapter, and the `previous_outlines`
loop of `BookAiService.generate_outline` fails with `AttributeError` on any
book whose context window is non-empty — here chapters 1-2, target chapter
2. -/
theorem chapter_outline_attribute_missing :
    (∀ c : Chapter, chapterGetAttr c "outline" = Option.none) ∧
    previous_outlines_read (mkBook [mkChapter 1 [], mkChapter 2 []]) 2 3 =
      Except.error "AttributeError: 'Chapter' object has no attribute 'outline'" := by
  exact ⟨fun c => rfl, rfl⟩

/-! ### C6 — pre-stream validation -/

/-- C6 (code bug evaluation): a `CustomUser` who never configured an API
credential holds `api_key = ""` (the `CharField` is non-null with
`default=""`), so the endpoint's `if api_key is None` test does not fire:
with a valid book, view permission and an existing chapter, the request
opens the streaming response instead of returning the 400 the claim
promises for a missing credential. -/
theorem endpoint_streams_despite_missing_api_key :
    (CustomUser.mk "u" "" 0 "").api_key = "" ∧
    generate_outline_endpoint false (CustomUser.mk "u" "" 0 "")
        (some (mkBook [mkChapter 1 []])) true (some (mkChapter 1 []))
        ([], .exhausted) =
      .streaming
        { content_type := "text/event-stream",
          headers := generate_outline_headers false,
          body := [completeFrame] } := by
  exact ⟨rfl, rfl⟩

/-! ### C8 — buffered invocation -/

/-- C8: the buffered invocation of `generate_chapter` accumulates the whole
chunk stream internally (`result += chunk` over the stream of the assembled
prompt) and returns the concatenation of all chunks trimmed of leading and
trailing whitespace. -/
theorem generate_chapter_buffered (stream : List Message → List String)
    (settings : String) (current_number : Int)
    (previous_outlines previous_chapters : List String)
    (current_outline : Option String) :
    generate_chapter stream settings current_number previous_outlines
        previous_chapters current_outline =
      pyStrip ((stream (generate_chapter_messages settings current_number
          previous_outlines previous_chapters current_outline)).foldr
            (fun chunk acc => chunk ++ acc) "") := by
  show pyStrip (List.foldl _ _ _) = _
  rw [foldl_append_eq_foldr]
  simp

/-! ### C7 — streaming response headers -/

/-- C7 (counterexample): the claim says the reverse-proxy buffering-disable
hint is added exactly when the deployment is non-debug; but in a debug
deployment (`settings.DEBUG = true`) the generate-outline endpoint still
adds `X-Accel-Buffering: no` — its header dict contains the hint
unconditionally (`ai/endpoints.py` lines 84-87). -/
theorem sse_headers_unconditional_hint :
    ("X-Accel-Buffering", "no") ∈ generate_outline_headers true := by decide

/-- C7 (amended): every streaming response carries
`Content-Type: text/event-stream` and `Cache-Control: no-cache`, fixed
together with all other headers at response construction, before any body
frame; `Connection: keep-alive` is added exactly when the deployment is
non-debug in both constructions; the buffering hint `X-Accel-Buffering: no`
is added exactly when non-debug by `create_sse_response` but unconditionally
by the generate-outline endpoint. -/
theorem sse_response_headers (debug : Bool) :
    ("Cache-Control", "no-cache") ∈ generate_outline_headers debug ∧
    ("Cache-Control", "no-cache") ∈ create_sse_response_headers debug ∧
    (("Connection", "keep-alive") ∈ generate_outline_headers debug ↔ debug = false) ∧
    (("Connection", "keep-alive") ∈ create_sse_response_headers debug ↔ debug = false) ∧
    (("X-Accel-Buffering", "no") ∈ create_sse_response_headers debug ↔ debug = false) ∧
    ("X-Accel-Buffering", "no") ∈ generate_outline_headers debug ∧
    (∀ fragments ending,
      (create_sse_response debug fragments ending).content_type = "text/event-stream" ∧
      (create_sse_response debug fragments ending).headers =
        create_sse_response_headers debug) ∧
    (∀ user bookLookup canViewBook chapterLookup generation response,
      generate_outline_endpoint debug user bookLookup canViewBook chapterLookup
          generation = .streaming response →
      response.content_type = "text/event-stream" ∧
      response.headers = generate_outline_headers debug) := by
  refine ⟨?_, ?_, ?_, ?_, ?_, ?_, fun fragments ending => ⟨rfl, rfl⟩, ?_⟩
  · cases debug <;> decide
  · cases debug <;> decide
  · cases debug <;> decide
  · cases debug <;> decide
  · cases debug <;> decide
  · cases debug <;> decide
  · intro user bookLookup canViewBook chapterLookup generation response h
    rcases bookLookup with _ | b <;> rcases chapterLookup with _ | ch <;>
      rcases canViewBook <;> simp [generate_outline_endpoint] at h
    rw [← h]
    exact ⟨rfl, rfl⟩

/-- Instantiation witness for `sse_response_headers`: the implication
conjunct applied to a concrete successful request. -/
theorem sse_response_headers_witness :
    ({ content_type := "text/event-stream",
       headers := generate_outline_headers true,
       body := [completeFrame] } : StreamingResponse).content_type =
        "text/event-stream" ∧
    ({ content_type := "text/event-stream",
       headers := generate_outline_headers true,
       body := [completeFrame] } : StreamingResponse).headers =
        generate_outline_headers true :=
  (sse_response_headers true).2.2.2.2.2.2.2 (CustomUser.mk "u" "" 0 "k")
    (some (mkBook [])) true (some (mkChapter 1 [])) ([], .exhausted) _ rfl


/-! ### C2 — context window bounds -/

/-- The chapter numbers of a chapter list. -/
def numbersOf (chapters : List Chapter) : List Int :=
  List.map (fun c => c.chapter_number) chapters

/-- The integer interval `[a, b)` as an ascending list — Python
`range(a, b)`. -/
def intRange (a b : Int) : List Int :=
  List.map (fun (i : Nat) => a + (i : Int)) (List.range (b - a).toNat)

theorem mem_intRange {n a b : Int} : n ∈ intRange a b ↔ a ≤ n ∧ n < b := by
  unfold intRange
  constructor
  · intro h
    rcases List.mem_map.mp h with ⟨i, hi, rfl⟩
    have := List.mem_range.mp hi
    omega
  · intro h
    exact List.mem_map.mpr ⟨(n - a).toNat, List.mem_range.mpr (by omega), by omega⟩

theorem pairwise_lt_intRange (a b : Int) : List.Pairwise (· < ·) (intRange a b) := by
  unfold intRange
  exact List.Pairwise.map _ (fun i j h => by omega) (List.sorted_lt_range _)

theorem length_intRange (a b : Int) : (intRange a b).length = (b - a).toNat := by
  unfold intRange
  rw [List.length_map, List.length_range]

/-- Membership in `get_chapters_by_range`: exactly the book's chapters with
number in `[start, stop)`. -/
theorem mem_get_chapters_by_range {book : Book} {start stop : Int} {c : Chapter} :
    c ∈ get_chapters_by_range book start stop ↔
      c ∈ book.chapters ∧ start ≤ c.chapter_number ∧ c.chapter_number < stop := by
  unfold get_chapters_by_range
  rw [List.mem_insertionSort, List.mem_filter]
  simp [and_assoc]

/-- The chapter numbers of `get_chapters_by_range` are strictly ascending
for a well-formed book. -/
theorem pairwise_lt_numbers_range {book : Book} (hwf : book.WF) (start stop : Int) :
    List.Pairwise (· < ·) (numbersOf (get_chapters_by_range book start stop)) := by
  have hsorted : List.Pairwise byNumber (get_chapters_by_range book start stop) :=
    List.sorted_insertionSort byNumber _
  have hle : List.Pairwise (· ≤ ·) (numbersOf (get_chapters_by_range book start stop)) :=
    List.Pairwise.map _ (fun _ _ h => h) hsorted
  have hperm : List.Perm (get_chapters_by_range book start stop)
      (List.filter (fun c => start ≤ c.chapter_number && c.chapter_number < stop)
        book.chapters) :=
    List.perm_insertionSort _ _
  have hsub : List.Sublist (numbersOf (List.filter
        (fun c => start ≤ c.chapter_number && c.chapter_number < stop) book.chapters))
      (numbersOf book.chapters) :=
    List.Sublist.map _ (List.filter_sublist _)
  have hnd : (numbersOf (get_chapters_by_range book start stop)).Nodup :=
    (List.Perm.nodup_iff (List.Perm.map _ hperm)).mpr (List.Sublist.nodup hsub hwf.2)
  exact List.Pairwise.imp₂ (fun _ _ h hne => lt_of_le_of_ne h hne) hle hnd

/-- For a well-formed book in which every chapter number of
`[max(1, N - size), N)` is present, the context window's chapter numbers are
exactly that integer range. -/
theorem contextWindow_numbers_eq_intRange {book : Book} (hwf : book.WF)
    {N size : Int} (hN : 1 < N)
    (hall : ∀ k ∈ intRange (max 1 (N - size)) N, k ∈ chapterNumbersIn book) :
    numbersOf (contextWindow book N size) = intRange (max 1 (N - size)) N := by
  have hwin : contextWindow book N size =
      get_chapters_by_range book (max 1 (N - size)) N := by
    unfold contextWindow
    rw [if_pos (by omega)]
  rw [hwin]
  have h1 := pairwise_lt_numbers_range hwf (max 1 (N - size)) N
  have h2 := pairwise_lt_intRange (max 1 (N - size)) N
  have hmem : ∀ n : Int,
      n ∈ numbersOf (get_chapters_by_range book (max 1 (N - size)) N) ↔
        n ∈ intRange (max 1 (N - size)) N := by
    intro n
    unfold numbersOf
    rw [List.mem_map, mem_intRange]
    constructor
    · rintro ⟨c, hc, rfl⟩
      rcases mem_get_chapters_by_range.mp hc with ⟨_, hb1, hb2⟩
      exact ⟨hb1, hb2⟩
    · rintro ⟨hb1, hb2⟩
      have hmem' := hall n (mem_intRange.mpr ⟨hb1, hb2⟩)
      rcases List.mem_map.mp hmem' with ⟨c, hc, rfl⟩
      exact ⟨c, mem_get_chapters_by_range.mpr ⟨hc, hb1, hb2⟩, rfl⟩
  exact List.eq_of_perm_of_sorted
    ((List.perm_ext_iff_of_nodup (List.Pairwise.imp ne_of_lt h1)
      (List.Pairwise.imp ne_of_lt h2)).mpr hmem) h1 h2

/-- C2 (amended): for every well-formed book and `context_size ≥ 0`, the
context window for target chapter 1 is empty regardless of `context_size`;
for a target chapter `N > 1` the returned chapter numbers are strictly
ascending and are exactly the book's existing chapter numbers inside
`[max(1, N - context_size), N)` — the target and later chapters are never
included — and they equal `range(max(1, N - context_size), N)` exactly when
every chapter number of that interval exists in the book.  (The original
claim asserts the unconditional equality "for every book"; it fails for
books with numbering gaps — see the counterexample theorem.) -/
theorem context_window_numbers (book : Book) (hwf : book.WF) (N size : Int)
    (_hsize : 0 ≤ size) :
    contextWindow book 1 size = [] ∧
    (1 < N →
      List.Pairwise (· < ·) (numbersOf (contextWindow book N size)) ∧
      (∀ n : Int,
        n ∈ numbersOf (contextWindow book N size) ↔
          n ∈ chapterNumbersIn book ∧ max 1 (N - size) ≤ n ∧ n < N) ∧
      (numbersOf (contextWindow book N size) = intRange (max 1 (N - size)) N ↔
        (∀ k ∈ intRange (max 1 (N - size)) N, k ∈ chapterNumbersIn book))) := by
  refine ⟨by unfold contextWindow; simp, fun hN => ?_⟩
  have hwin : contextWindow book N size =
      get_chapters_by_range book (max 1 (N - size)) N := by
    unfold contextWindow
    rw [if_pos (by omega)]
  refine ⟨?_, ?_, ?_⟩
  · rw [hwin]; exact pairwise_lt_numbers_range hwf _ _
  · intro n
    rw [hwin]
    unfold numbersOf chapterNumbersIn
    rw [List.mem_map]
    constructor
    · rintro ⟨c, hc, rfl⟩
      rcases mem_get_chapters_by_range.mp hc with ⟨hc', hb1, hb2⟩
      exact ⟨List.mem_map.mpr ⟨c, hc', rfl⟩, hb1, hb2⟩
    · rintro ⟨hmem, hb1, hb2⟩
      rcases List.mem_map.mp hmem with ⟨c, hc, rfl⟩
      exact ⟨c, mem_get_chapters_by_range.mpr ⟨hc, hb1, hb2⟩, rfl⟩
  · constructor
    · intro heq k hk
      rw [← heq, hwin] at hk
      rcases List.mem_map.mp hk with ⟨c, hc, rfl⟩
      exact List.mem_map.mpr ⟨c, (mem_get_chapters_by_range.mp hc).1, rfl⟩
    · exact contextWindow_numbers_eq_intRange hwf hN

/-- Instantiation witness for `context_window_numbers`: a book with chapters
1-3, target chapter 3, look-back 5 — the window is `[1, 2]`. -/
theorem context_window_numbers_witness :
    numbersOf (contextWindow (mkBook [mkChapter 1 [], mkChapter 2 [], mkChapter 3 []]) 3 5) =
      intRange (max 1 (3 - 5)) 3 :=
  (((context_window_numbers (mkBook [mkChapter 1 [], mkChapter 2 [], mkChapter 3 []])
      ⟨by decide, by decide⟩ 3 5 (by decide)).2 (by decide)).2.2).mpr (by decide)

/-- C2 (counterexample): for the book holding only chapters 1 and 5, target
chapter `N = 5` and `context_size = 2`, the context window is empty, while
the claim as stated demands chapter numbers `range(3, 5) = [3, 4]` for
every book: the unconditional equality fails on books with numbering
gaps. -/
theorem context_window_numbers_gap :
    ¬ (numbersOf (contextWindow (mkBook [mkChapter 1 [], mkChapter 5 []]) 5 2) =
        intRange (max 1 (5 - 2)) 5) := by
  decide

/-! ### C3 — text extraction -/

/-- Inserting into a list keeps the elements of any fixed key in place:
elements strictly smaller than the inserted one are passed over, so they
cannot share its key. -/
theorem filter_key_orderedInsert (k : Int) (x : PyVal) (l : List PyVal) :
    List.filter (fun it => itemIndexInt it = k) (List.orderedInsert byIndex x l) =
      if itemIndexInt x = k then
        x :: List.filter (fun it => itemIndexInt it = k) l
      else List.filter (fun it => itemIndexInt it = k) l := by
  induction l with
  | nil =>
    by_cases hxk : itemIndexInt x = k <;>
      simp [List.orderedInsert, List.filter_cons, hxk]
  | cons b l ih =>
    by_cases hxb : byIndex x b
    · rw [List.orderedInsert, if_pos hxb]
      by_cases hxk : itemIndexInt x = k <;>
        simp [List.filter_cons, hxk]
    · rw [List.orderedInsert, if_neg hxb]
      have hbx : itemIndexInt b < itemIndexInt x := by
        unfold byIndex at hxb; omega
      by_cases hbk : itemIndexInt b = k
      · have hxk : ¬ itemIndexInt x = k := by omega
        simp [List.filter_cons, hbk, hxk, ih]
      · by_cases hxk : itemIndexInt x = k <;>
          simp [List.filter_cons, hbk, hxk, ih]

/-- Stability of the embedded sort: for every key value, the sorted list
keeps the blocks of that key in their original relative order. -/
theorem filter_key_insertionSort (k : Int) (l : List PyVal) :
    List.filter (fun it => itemIndexInt it = k) (List.insertionSort byIndex l) =
      List.filter (fun it => itemIndexInt it = k) l := by
  induction l with
  | nil => rfl
  | cons x l ih =>
    rw [List.insertionSort, filter_key_orderedInsert, ih]
    by_cases hxk : itemIndexInt x = k <;> simp [List.filter_cons, hxk]

/-- The chapter used in the spec's round-trip example. -/
def exampleChapter : Chapter :=
  mkChapter 1
    [.dict [("type", .str "text"), ("index", .int 1), ("content", .str "B")],
     .dict [("type", .str "text"), ("index", .int 0), ("content", .str "A")],
     .dict [("type", .str "image"), ("index", .int 2), ("content", .str "X")]]

/-- C3: for every chapter whose present `index` values are integers (the
domain where the Python sort key is faithful), text extraction returns the
concatenation of `str(item.get("content", ""))` over some arrangement of
exactly the `type == "text"` blocks that is ascending in
`item.get("index", 0)` (missing `index` defaults to 0) and stable — blocks
of equal index keep their original relative order; non-text blocks are
dropped; empty content yields the empty string; and the spec's example
blocks extract to `"AB"`. -/
theorem chapter_text_extraction (ch : Chapter)
    (_hidx : indexesAreInts ch.content = true) :
    (∃ sorted_items : List PyVal,
      get_chapter_content ch = String.join (List.map itemContentStr sorted_items) ∧
      List.Perm sorted_items (List.filter isTextItem ch.content) ∧
      List.Pairwise byIndex sorted_items ∧
      (∀ k : Int, List.filter (fun it => itemIndexInt it = k) sorted_items =
        List.filter (fun it => itemIndexInt it = k)
          (List.filter isTextItem ch.content))) ∧
    (ch.content = [] → get_chapter_content ch = "") ∧
    get_chapter_content exampleChapter = "AB" := by
  refine ⟨⟨List.insertionSort byIndex (List.filter isTextItem ch.content), ?_,
      List.perm_insertionSort _ _, List.sorted_insertionSort _ _,
      fun k => filter_key_insertionSort k _⟩, fun h => by simp [get_chapter_content, h], ?_⟩
  · by_cases hc : ch.content.isEmpty
    · have hnil : ch.content = [] := by
        cases hcc : ch.content
        · rfl
        · rw [hcc] at hc; simp at hc
      simp [get_chapter_content, hnil]
      rfl
    · unfold get_chapter_content
      rw [if_neg hc]
  · decide

/-- Instantiation witness for `chapter_text_extraction` at the example
chapter. -/
theorem chapter_text_extraction_witness :
    (∃ sorted_items : List PyVal,
      get_chapter_content exampleChapter =
        String.join (List.map itemContentStr sorted_items) ∧
      List.Perm sorted_items (List.filter isTextItem exampleChapter.content) ∧
      List.Pairwise byIndex sorted_items ∧
      (∀ k : Int, List.filter (fun it => itemIndexInt it = k) sorted_items =
        List.filter (fun it => itemIndexInt it = k)
          (List.filter isTextItem exampleChapter.content))) ∧
    (exampleChapter.content = [] → get_chapter_content exampleChapter = "") ∧
    get_chapter_content exampleChapter = "AB" :=
  chapter_text_extraction exampleChapter (by decide)

/-! ### C10 — non-dict entries, missing content, str coercion -/

/-- Text blocks are in particular dict blocks, so filtering to dicts first
changes nothing. -/
theorem filter_text_filter_dict (l : List PyVal) :
    List.filter isTextItem (List.filter isDictItem l) = List.filter isTextItem l := by
  rw [List.filter_filter]
  refine List.filter_congr (fun x _ => ?_)
  cases x <;> simp [isTextItem, isDictItem]

/-- C10: text extraction silently ignores any non-dict entry of the content
list (dropping them never changes the result); a `type == "text"` block
without a `content` key is not an error — it contributes
`str("") = ""` to the concatenation (the example with a lone such block
extracts to `""`); and a non-string `content` value is coerced with `str()`
before concatenation — an integer content `42` next to a non-dict entry
extracts to `"42"`. -/
theorem extraction_nondict_and_coercion :
    (∀ ch : Chapter,
      get_chapter_content ch =
        get_chapter_content { ch with content := List.filter isDictItem ch.content }) ∧
    (∀ fields : List (String × PyVal), dictGet fields "content" = Option.none →
      itemContentStr (.dict fields) = "") ∧
    get_chapter_content (mkChapter 1 [.dict [("type", .str "text")]]) = "" ∧
    get_chapter_content (mkChapter 1
      [.str "noise", .dict [("type", .str "text"), ("content", .int 42)]]) = "42" := by
  refine ⟨fun ch => ?_, fun fields h => ?_, by decide, by decide⟩
  · by_cases h1 : ch.content.isEmpty
    · have hnil : ch.content = [] := by
        cases hcc : ch.content
        · rfl
        · rw [hcc] at h1; simp at h1
      simp [get_chapter_content, hnil]
    · by_cases h2 : (List.filter isDictItem ch.content).isEmpty
      · have h2' : List.filter isDictItem ch.content = [] := by
          cases hcc : List.filter isDictItem ch.content
          · rfl
          · rw [hcc] at h2; simp at h2
        have htext : List.filter isTextItem ch.content = [] := by
          rw [← filter_text_filter_dict, h2']
          rfl
        simp [get_chapter_content, h1, h2', htext]
        rfl
      · simp only [get_chapter_content]
        rw [if_neg h1, if_neg h2, filter_text_filter_dict]
  · have hdef : itemContentStr (.dict fields) =
        pyStr ((dictGet fields "content").getD (.str "")) := rfl
    rw [hdef, h]
    rfl

/-- Instantiation witness for `extraction_nondict_and_coercion`. -/
theorem extraction_nondict_and_coercion_witness :
    get_chapter_content (mkChapter 1 [.str "x"]) =
      get_chapter_content
        { mkChapter 1 [.str "x"] with
          content := List.filter isDictItem (mkChapter 1 [.str "x"]).content } ∧
    itemContentStr (.dict []) = "" :=
  ⟨extraction_nondict_and_coercion.1 (mkChapter 1 [.str "x"]),
   extraction_nondict_and_coercion.2.1 [] rfl⟩

/-! ### C4 — prompt assembly shape -/

/-- The claim's (and spec §4.3's) literal outline-mode prompt: interleaved
pairs of "(prior chapter's outline as user-turn / prior chapter's outline as
assistant-turn)" for each context chapter, inside the common skeleton.
Stated from the claim's words for comparison with the source's
`generate_outline_messages`. -/
def specOutlineMessages (settings : String) (current_number : Int)
    (previous_outlines : List String) : List Message :=
  [.system generate_outline_prompt,
   .user (settingsTurn settings),
   .assistant ackTurn]
  ++ List.flatten (previous_outlines.map fun o => [Message.user o, Message.assistant o])
  ++ [.user (outlineRequest current_number)]

/-- C4 (counterexample): with settings `"S"`, target chapter 2 and one
context outline `"O1"`, the source's outline-mode prompt is not the claim's:
the user half of the interleaved pair is the fixed request line
`完成第 1 章的大纲：`, not the prior chapter's outline `"O1"`. -/
theorem prompt_outline_pair_shape :
    ¬ (generate_outline_messages "S" 2 ["O1"] = specOutlineMessages "S" 2 ["O1"]) := by
  decide

/-- Index-based map over a list equals the map over its enumeration. -/
theorem range_map_getD_eq_enum_map {α β : Type} (l : List α) (d : α)
    (f : Nat → α → β) :
    List.map (fun (i : Nat) => f i (l.getD i d)) (List.range l.length) =
      List.map (fun p => f p.1 p.2) l.enum := by
  apply List.ext_getElem
  · simp
  · intro i h1 h2
    simp only [List.getElem_map, List.getElem_range, List.enum,
      List.getElem_enumFrom, Nat.zero_add]
    rw [List.getD_eq_getElem?_getD, List.getElem?_eq_getElem (by simpa using h1)]
    rfl

/-- Two-list version of `range_map_getD_eq_enum_map`, against the
enumeration of the zip. -/
theorem range_map_getD_eq_enum_zip_map {α β : Type} (l₁ l₂ : List α) (d : α)
    (f : Nat → α → α → β) (hlen : l₁.length = l₂.length) :
    List.map (fun (i : Nat) => f i (l₁.getD i d) (l₂.getD i d))
        (List.range l₂.length) =
      List.map (fun p => f p.1 p.2.1 p.2.2) (l₁.zip l₂).enum := by
  apply List.ext_getElem
  · simp [List.length_zip, hlen]
  · intro i h1 h2
    have hi2 : i < l₂.length := by simpa using h1
    have hi1 : i < l₁.length := by omega
    simp only [List.getElem_map, List.getElem_range, List.enum,
      List.getElem_enumFrom, Nat.zero_add, List.getElem_zip]
    rw [List.getD_eq_getElem?_getD, List.getElem?_eq_getElem hi1,
      List.getD_eq_getElem?_getD, List.getElem?_eq_getElem hi2]
    rfl

/-- The amended outline-mode prompt, stated over the enumerated context:
the user half of each pair is the request line naming the prior chapter's
number `current_number - len + i`, the assistant half is that chapter's
outline. -/
def specOutlineMessagesFixed (settings : String) (current_number : Int)
    (previous_outlines : List String) : List Message :=
  [.system generate_outline_prompt,
   .user (settingsTurn settings),
   .assistant ackTurn]
  ++ List.flatten (previous_outlines.enum.map fun p =>
       [Message.user (outlineRequest
          (current_number - (previous_outlines.length : Int) + (p.1 : Int))),
        Message.assistant p.2])
  ++ [.user (outlineRequest current_number)]

/-- The chapter-mode prompt stated over the enumerated zip of the context
outlines and texts: each pair carries the prior outline inside the user turn
and the prior full chapter text as the assistant turn; the final user turn
supplies the current chapter's own outline. -/
def specChapterMessages (settings : String) (current_number : Int)
    (previous_outlines previous_chapters : List String)
    (current_outline : Option String) : List Message :=
  [.system generate_chapter_prompt,
   .user (settingsTurn settings),
   .assistant ackTurn]
  ++ List.flatten (((previous_outlines.zip previous_chapters).enum).map fun p =>
       [Message.user (chapterTurn
          (current_number - ((previous_outlines.zip previous_chapters).length : Int)
            + (p.1 : Int)) p.2.1),
        Message.assistant p.2.2])
  ++ [.user (chapterTurn current_number (optStr current_outline))]

/-- C4 (amended): both assembled prompts are, in order: the fixed system
instruction, the book settings as a user turn, the synthetic acknowledgment
assistant turn, one interleaved pair per context chapter in the order of the
supplied context window — in outline mode (request line naming the prior
chapter / prior chapter's outline as assistant turn), in chapter mode (prior
outline inside the user turn / prior full chapter text as assistant turn) —
and a final user turn requesting chapter `current_number`, which in chapter
mode additionally supplies the current chapter's own outline. -/
theorem prompt_assembly (settings : String) (N : Int)
    (prevO prevC : List String) (curOut : Option String)
    (hlen : prevO.length = prevC.length) :
    generate_outline_messages settings N prevO =
      specOutlineMessagesFixed settings N prevO ∧
    generate_chapter_messages settings N prevO prevC curOut =
      specChapterMessages settings N prevO prevC curOut := by
  constructor
  · unfold generate_outline_messages specOutlineMessagesFixed outlineHistory
    dsimp only
    rw [range_map_getD_eq_enum_map prevO ""
      (fun i o => [Message.user (outlineRequest (N - (prevO.length : Int) + (i : Int))),
                   Message.assistant o])]
  · unfold generate_chapter_messages specChapterMessages chapterHistory
    dsimp only
    rw [range_map_getD_eq_enum_zip_map prevO prevC ""
      (fun i o c => [Message.user (chapterTurn (N - (prevC.length : Int) + (i : Int)) o),
                     Message.assistant c]) hlen]
    have hz : (prevO.zip prevC).length = prevC.length := by
      rw [List.length_zip]; omega
    rw [hz]

/-- Instantiation witness for `prompt_assembly`. -/
theorem prompt_assembly_witness :
    generate_outline_messages "S" 3 ["O1", "O2"] =
      specOutlineMessagesFixed "S" 3 ["O1", "O2"] ∧
    generate_chapter_messages "S" 3 ["O1", "O2"] ["C1", "C2"] (some "O3") =
      specChapterMessages "S" 3 ["O1", "O2"] ["C1", "C2"] (some "O3") :=
  prompt_assembly "S" 3 ["O1", "O2"] ["C1", "C2"] (some "O3") rfl

/-! ### C9 — history chapter-number labels -/

/-- Whether a message is a user turn. -/
def isUserMsg : Message → Bool
  | .user _ => true
  | _ => false

/-- The chapter-number labels the chains write into the interleaved user
turns: `current_number - len(context) + i` for `i in range(len(context))`,
computed only from the count of supplied context items. -/
def historyLabels (current_number : Int) (len : Nat) : List Int :=
  List.map (fun (i : Nat) => current_number - (len : Int) + (i : Int)) (List.range len)

/-- Flattening singleton blocks is mapping. -/
theorem flatten_map_singleton {α β : Type} (l : List α) (f : α → β) :
    List.flatten (List.map (fun a => [f a]) l) = List.map f l := by
  induction l with
  | nil => rfl
  | cons x l ih => simp [ih]

/-- C9: in both chains the i-th interleaved user turn carries the chapter
number `current_number - len(context) + i` — a function of the count of
supplied context items alone; and whenever every chapter number of the
look-back range exists in the book, these labels coincide with the actual
chapter numbers of the context window.  (The claim's converse — that they
coincide *only* in that case — fails: see the counterexample with a gap
below the surviving context.) -/
theorem history_label_numbers :
    (∀ (N : Int) (prevO : List String),
      List.filter isUserMsg (outlineHistory N prevO) =
        List.map (fun (i : Nat) =>
            Message.user (outlineRequest (N - (prevO.length : Int) + (i : Int))))
          (List.range prevO.length)) ∧
    (∀ (N : Int) (prevO prevC : List String),
      List.filter isUserMsg (chapterHistory N prevO prevC) =
        List.map (fun (i : Nat) =>
            Message.user (chapterTurn (N - (prevC.length : Int) + (i : Int))
              (prevO.getD i "")))
          (List.range prevC.length)) ∧
    (∀ book : Book, book.WF → ∀ N size : Int, 0 ≤ size → 1 < N →
      (∀ k ∈ intRange (max 1 (N - size)) N, k ∈ chapterNumbersIn book) →
      historyLabels N (contextWindow book N size).length =
        numbersOf (contextWindow book N size)) := by
  refine ⟨fun N prevO => ?_, fun N prevO prevC => ?_, ?_⟩
  · unfold outlineHistory
    dsimp only
    rw [List.filter_flatten, List.map_map]
    have hf : (List.filter isUserMsg ∘ fun (i : Nat) =>
        [Message.user (outlineRequest (N - (prevO.length : Int) + (i : Int))),
         Message.assistant (prevO.getD i "")]) = fun (i : Nat) =>
        [Message.user (outlineRequest (N - (prevO.length : Int) + (i : Int)))] := by
      funext i
      rfl
    rw [hf, flatten_map_singleton]
  · unfold chapterHistory
    dsimp only
    rw [List.filter_flatten, List.map_map]
    have hf : (List.filter isUserMsg ∘ fun (i : Nat) =>
        [Message.user (chapterTurn (N - (prevC.length : Int) + (i : Int))
           (prevO.getD i "")),
         Message.assistant (prevC.getD i "")]) = fun (i : Nat) =>
        [Message.user (chapterTurn (N - (prevC.length : Int) + (i : Int))
           (prevO.getD i ""))] := by
      funext i
      rfl
    rw [hf, flatten_map_singleton]
  · intro book hwf N size hsize hN hall
    have heq := contextWindow_numbers_eq_intRange hwf hN hall
    have hlen : (contextWindow book N size).length = (N - max 1 (N - size)).toNat := by
      have hl := congrArg List.length heq
      unfold numbersOf at hl
      rw [List.length_map, length_intRange] at hl
      exact hl
    rw [heq, hlen]
    unfold historyLabels intRange
    have hmax : max 1 (N - size) ≤ N := by omega
    refine List.map_congr_left (fun i hi => ?_)
    have := List.mem_range.mp hi
    omega

/-- Instantiation witness for `history_label_numbers`: book with chapters
1-3, target 3, look-back 2 — labels `[1, 2]` match the window numbers. -/
theorem history_label_numbers_witness :
    historyLabels 3
        (contextWindow (mkBook [mkChapter 1 [], mkChapter 2 [], mkChapter 3 []]) 3 2).length =
      numbersOf (contextWindow (mkBook [mkChapter 1 [], mkChapter 2 [], mkChapter 3 []]) 3 2) :=
  history_label_numbers.2.2 (mkBook [mkChapter 1 [], mkChapter 2 [], mkChapter 3 []])
    ⟨by decide, by decide⟩ 3 2 (by decide) (by decide) (by decide)

/-- C9 (counterexample to the claimed equivalence): for the book holding
only chapters 4 and 5, target `N = 5`, `context_size = 3`, the look-back
range `[2, 5)` has gaps (chapters 2 and 3 are missing), yet the single
surviving context chapter 4 receives label `5 - 1 + 0 = 4` — the labels
match the actual numbers even though not every chapter number in the
look-back range exists, refuting the claim's "exactly when". -/
theorem history_label_numbers_gap :
    ¬ ((historyLabels 5 (contextWindow (mkBook [mkChapter 4 [], mkChapter 5 []]) 5 3).length =
          numbersOf (contextWindow (mkBook [mkChapter 4 [], mkChapter 5 []]) 5 3)) ↔
        (∀ k ∈ intRange (max 1 (5 - 3)) 5,
          k ∈ chapterNumbersIn (mkBook [mkChapter 4 [], mkChapter 5 []]))) := by
  decide
